import Mathlib

/-!
Verification of the accessory reconciliation engine of the
`homebridge-rainbird` platform (`src/platform.ts`), as a shallow embedding.

The embedding covers:
* the display-name sanitizer `validateAndCleanDisplayName`;
* the identifier seed strings fed to `api.hap.uuid.generate`;
* the zone inclusion filter parsing (`includeZones.split(',').map(Number)`);
* the per-kind reconciliation functions (`createIrrigationSystem`,
  `createLeakSensor`, `createZoneValve`, `createContactSensor`,
  `createProgramSwitch`, `createStopIrrigationSwitch`,
  `createDelayIrrigationSwitch`, `removeContactSensor`,
  `unregisterPlatformAccessories`) and the driving loop `discoverDevices`
  together with the `zone_enable` notification handler;
* the config defaulting pass `initialiseConfig`.

JavaScript strings are modelled as Lean `String` (a structure over
`List Char`); JavaScript numbers appearing here are integers and are
modelled as `Nat`/`Int`, with `NaN` modelled as `none`.  A thrown
exception is modelled as an `Option DiscoverError` component threaded
next to the state: mutations performed before the throw persist, as they
do in the source.
-/

namespace Rainbird

/-! ### Display-name sanitizer (`validateAndCleanDisplayName`)

The source uses three regexes over Unicode letter/digit classes:
`validPattern = /^[\p{L}\p{N}][\p{L}\p{N} ']*[\p{L}\p{N}]$/u`,
`invalidCharsPattern = /[^\p{L}\p{N} ']/gu`,
`invalidStartEndPattern = /^[^\p{L}\p{N}]+|[^\p{L}\p{N}]+$/gu`.
We embed the character classes via `Char.isAlpha`/`Char.isDigit`
(the letter/digit classification of the embedded character universe)
and the regex operations as the list functions they denote:
removing every match of `invalidCharsPattern` is a `filter`, removing
the leading and trailing runs matched by `invalidStartEndPattern` is a
`dropWhile` from each end. -/

/-- A character matching `[\p{L}\p{N}]`. -/
def isNameChar (c : Char) : Bool := c.isAlpha || c.isDigit

/-- The apostrophe character (code point 39). -/
def apostrophe : Char := Char.ofNat 39

/-- A character matching `[\p{L}\p{N} ']`. -/
def isInteriorChar (c : Char) : Bool := isNameChar c || c == ' ' || c == apostrophe

/-- The `[\p{L}\p{N} ']*[\p{L}\p{N}]$` applied after the first character:
every character but the last is interior, the last is a name character. -/
def validMiddle : List Char → Bool
  | [] => false
  | [c] => isNameChar c
  | c :: rest => isInteriorChar c && validMiddle rest

/-- The test `validPattern.test(value)`. -/
def validPattern : List Char → Bool
  | [] => false
  | c :: rest => isNameChar c && validMiddle rest

/-- The test `invalidCharsPattern.test(value)`. -/
def hasInvalidChars (l : List Char) : Bool := l.any (fun c => !isInteriorChar c)

/-- The test `invalidStartEndPattern.test(value)`: some character is
present and the first or last one is not a name character. -/
def hasInvalidStartEnd (l : List Char) : Bool :=
  match l.head?, l.getLast? with
  | some a, some b => !isNameChar a || !isNameChar b
  | _, _ => false

/-- A character failing `[\p{L}\p{N}]`. -/
def notName (c : Char) : Bool := !isNameChar c

/-- The `value.replace(invalidStartEndPattern, '')`: remove the maximal
leading and trailing runs of non-name characters. -/
def stripStartEnd (l : List Char) : List Char :=
  ((l.dropWhile notName).reverse.dropWhile notName).reverse

/-- The non-permissive branch of `validateAndCleanDisplayName`, on the
character list of the value. -/
def cleanList (l : List Char) : List Char :=
  if validPattern l then l
  else
    let l1 := if hasInvalidChars l then l.filter isInteriorChar else l
    if hasInvalidStartEnd l1 then stripStartEnd l1 else l1

/-- The `RainbirdPlatform.validateAndCleanDisplayName` (src/platform.ts:776).
The first argument models `this.config.options?.allowInvalidCharacters`;
the `displayName`/`name` parameters of the source only feed log lines and
are omitted.  The function never throws: it is total. -/
def validateAndCleanDisplayName (allowInvalidCharacters : Bool) (value : String) : String :=
  if allowInvalidCharacters then value else String.mk (cleanList value.data)

end Rainbird

namespace Rainbird

/-! ### Sanitizer lemmas -/

theorem isInteriorChar_of_isNameChar {c : Char} (h : isNameChar c = true) :
    isInteriorChar c = true := by
  simp [isInteriorChar, h]

theorem validMiddle_all_interior :
    ∀ l : List Char, validMiddle l = true → l.all isInteriorChar = true := by
  intro l
  induction l with
  | nil => simp [validMiddle]
  | cons c rest ih =>
    cases rest with
    | nil =>
      intro h
      simp only [validMiddle] at h
      simp [isInteriorChar_of_isNameChar h]
    | cons d rest' =>
      intro h
      simp only [validMiddle, Bool.and_eq_true] at h
      have hrest := ih h.2
      simp only [List.all_cons, Bool.and_eq_true] at hrest ⊢
      exact ⟨h.1, hrest⟩

theorem validMiddle_getLast :
    ∀ l : List Char, validMiddle l = true → l.getLast?.all isNameChar = true := by
  intro l
  induction l with
  | nil => simp [validMiddle]
  | cons c rest ih =>
    cases rest with
    | nil =>
      intro h
      simp only [validMiddle] at h
      simpa using h
    | cons d rest' =>
      intro h
      simp only [validMiddle, Bool.and_eq_true] at h
      rw [List.getLast?_cons_cons]
      exact ih h.2

theorem validPattern_all_interior {l : List Char} (h : validPattern l = true) :
    l.all isInteriorChar = true := by
  cases l with
  | nil => simp [validPattern] at h
  | cons c rest =>
    simp only [validPattern, Bool.and_eq_true] at h
    simp only [List.all_cons, Bool.and_eq_true]
    exact ⟨isInteriorChar_of_isNameChar h.1, validMiddle_all_interior rest h.2⟩

theorem validPattern_head {l : List Char} (h : validPattern l = true) :
    l.head?.all isNameChar = true := by
  cases l with
  | nil => simp [validPattern] at h
  | cons c rest =>
    simp only [validPattern, Bool.and_eq_true] at h
    simpa using h.1

theorem validPattern_getLast {l : List Char} (h : validPattern l = true) :
    l.getLast?.all isNameChar = true := by
  cases l with
  | nil => simp [validPattern] at h
  | cons c rest =>
    simp only [validPattern, Bool.and_eq_true] at h
    cases rest with
    | nil =>
      simp only [validMiddle] at h
      simpa using h.1
    | cons d rest' =>
      rw [List.getLast?_cons_cons]
      exact validMiddle_getLast _ h.2

theorem head?_dropWhile_notName :
    ∀ l : List Char, ∀ c, (l.dropWhile notName).head? = some c → isNameChar c = true := by
  intro l
  induction l with
  | nil => intro c h; simp [List.dropWhile] at h
  | cons a rest ih =>
    intro c h
    by_cases ha : notName a = true
    · rw [List.dropWhile_cons_of_pos ha] at h
      exact ih c h
    · rw [List.dropWhile_cons_of_neg ha] at h
      simp only [List.head?_cons, Option.some.injEq] at h
      subst h
      simpa [notName] using ha

theorem dropWhile_eq_append (p : Char → Bool) :
    ∀ l : List Char, ∃ t, l = t ++ l.dropWhile p := by
  intro l
  induction l with
  | nil => exact ⟨[], rfl⟩
  | cons a rest ih =>
    by_cases ha : p a = true
    · obtain ⟨t, ht⟩ := ih
      refine ⟨a :: t, ?_⟩
      rw [List.dropWhile_cons_of_pos ha]
      simpa using ht
    · refine ⟨[], ?_⟩
      rw [List.dropWhile_cons_of_neg ha]
      rfl

theorem getLast?_dropWhile (p : Char → Bool) (l : List Char) {c : Char}
    (h : (l.dropWhile p).getLast? = some c) : l.getLast? = some c := by
  obtain ⟨t, ht⟩ := dropWhile_eq_append p l
  have hne : l.dropWhile p ≠ [] := by
    intro hnil
    rw [hnil] at h
    simp at h
  rw [ht, List.getLast?_append_of_ne_nil _ hne]
  exact h

theorem stripStartEnd_head {l : List Char} {c : Char}
    (h : (stripStartEnd l).head? = some c) : isNameChar c = true := by
  unfold stripStartEnd at h
  rw [List.head?_reverse] at h
  have h2 := getLast?_dropWhile notName (l.dropWhile notName).reverse h
  rw [List.getLast?_reverse] at h2
  exact head?_dropWhile_notName _ c h2

theorem stripStartEnd_getLast {l : List Char} {c : Char}
    (h : (stripStartEnd l).getLast? = some c) : isNameChar c = true := by
  unfold stripStartEnd at h
  rw [List.getLast?_reverse] at h
  exact head?_dropWhile_notName _ c h

theorem eq_nil_of_getLast?_eq_none {l : List Char} (h : l.getLast? = none) : l = [] := by
  rw [← List.head?_reverse, List.head?_eq_none_iff] at h
  simpa using h

theorem mem_of_mem_stripStartEnd {l : List Char} {c : Char}
    (h : c ∈ stripStartEnd l) : c ∈ l := by
  unfold stripStartEnd at h
  rw [List.mem_reverse] at h
  have h1 := (List.dropWhile_sublist notName).subset h
  rw [List.mem_reverse] at h1
  exact (List.dropWhile_sublist notName).subset h1

/-- Every output of `cleanList` consists of interior characters only and
starts and ends with a name character (vacuously when empty). -/
theorem cleanList_invariant (l : List Char) :
    (cleanList l).all isInteriorChar = true ∧
    (cleanList l).head?.all isNameChar = true ∧
    (cleanList l).getLast?.all isNameChar = true := by
  unfold cleanList
  by_cases hv : validPattern l = true
  · simp only [hv, if_true]
    exact ⟨validPattern_all_interior hv, validPattern_head hv, validPattern_getLast hv⟩
  · simp only [hv, if_false, Bool.false_eq_true]
    set l1 := if hasInvalidChars l then l.filter isInteriorChar else l with hl1
    have hall1 : ∀ c ∈ l1, isInteriorChar c = true := by
      intro c hc
      rw [hl1] at hc
      by_cases hinv : hasInvalidChars l = true
      · rw [if_pos hinv] at hc
        exact (List.mem_filter.mp hc).2
      · rw [if_neg hinv] at hc
        have h2 : hasInvalidChars l = false := by simpa using hinv
        unfold hasInvalidChars at h2
        rw [List.any_eq_false] at h2
        have := h2 c hc
        simpa using this
    by_cases hse : hasInvalidStartEnd l1 = true
    · simp only [hse, if_true]
      refine ⟨?_, ?_, ?_⟩
      · rw [List.all_eq_true]
        intro c hc
        exact hall1 c (mem_of_mem_stripStartEnd hc)
      · cases hh : (stripStartEnd l1).head? with
        | none => simp
        | some c => simpa using stripStartEnd_head hh
      · cases hh : (stripStartEnd l1).getLast? with
        | none => simp
        | some c => simpa using stripStartEnd_getLast hh
    · simp only [hse, if_false, Bool.false_eq_true]
      refine ⟨?_, ?_, ?_⟩
      · rw [List.all_eq_true]
        exact hall1
      · unfold hasInvalidStartEnd at hse
        cases hh : l1.head? with
        | none => simp
        | some a =>
          cases hg : l1.getLast? with
          | none =>
            rw [eq_nil_of_getLast?_eq_none hg] at hh
            simp at hh
          | some b =>
            rw [hh, hg] at hse
            simp only [Bool.or_eq_true, Bool.not_eq_true'] at hse
            push_neg at hse
            simpa using hse.1
      · unfold hasInvalidStartEnd at hse
        cases hg : l1.getLast? with
        | none => simp
        | some b =>
          cases hh : l1.head? with
          | none =>
            rw [List.head?_eq_none_iff] at hh
            rw [hh] at hg
            simp at hg
          | some a =>
            rw [hh, hg] at hse
            simp only [Bool.or_eq_true, Bool.not_eq_true'] at hse
            push_neg at hse
            simpa using hse.2

/-- A list already satisfying the output invariant is a fixed point of
`cleanList`. -/
theorem cleanList_fixed {l : List Char}
    (hall : l.all isInteriorChar = true)
    (hh : l.head?.all isNameChar = true)
    (hg : l.getLast?.all isNameChar = true) : cleanList l = l := by
  unfold cleanList
  by_cases hv : validPattern l = true
  · simp [hv]
  · simp only [hv, if_false, Bool.false_eq_true]
    have hinv : hasInvalidChars l = false := by
      unfold hasInvalidChars
      rw [List.any_eq_false]
      intro c hc
      rw [List.all_eq_true] at hall
      simp [hall c hc]
    have hse : hasInvalidStartEnd l = false := by
      unfold hasInvalidStartEnd
      cases hhd : l.head? with
      | none => simp
      | some a =>
        cases hlast : l.getLast? with
        | none =>
          cases l with
          | nil => simp at hhd
          | cons x xs => simp at hlast
        | some b =>
          rw [hhd] at hh
          rw [hlast] at hg
          simp only [Option.all_some] at hh hg
          simp [hh, hg]
    simp [hinv, hse]

theorem cleanList_idem (l : List Char) : cleanList (cleanList l) = cleanList l := by
  obtain ⟨h1, h2, h3⟩ := cleanList_invariant l
  exact cleanList_fixed h1 h2 h3

end Rainbird

namespace Rainbird

/-! ### Decimal interpolation and identifier seeds

Template literals such as `` `${rainbird.model}-valve-${zoneId}` `` splice
the decimal representation of the (non-negative integer) zone id into the
string.  `natToString` embeds that decimal printing.  `hap.uuid.generate`
is an external host capability ("generate stable identifier from a
string"); the spec treats it as deterministic and injective in practice,
so the identifier is modelled by the seed string itself. -/

/-- The decimal digit character for `d < 10`. -/
def digitChar (d : Nat) : Char :=
  match d with
  | 0 => '0' | 1 => '1' | 2 => '2' | 3 => '3' | 4 => '4'
  | 5 => '5' | 6 => '6' | 7 => '7' | 8 => '8' | 9 => '9'
  | _ => '*'

/-- Decimal digits, most significant first, with structural fuel
(any `fuel > n` yields the digits of `n`). -/
def toDecimalDigitsAux : Nat → Nat → List Char
  | 0, _ => []
  | fuel + 1, n =>
    if n < 10 then [digitChar n]
    else toDecimalDigitsAux fuel (n / 10) ++ [digitChar (n % 10)]

/-- Decimal digits of a natural number, most significant first. -/
def toDecimalDigits (n : Nat) : List Char := toDecimalDigitsAux (n + 1) n

/-- JavaScript number-to-string conversion for non-negative integers. -/
def natToString (n : Nat) : String := String.mk (toDecimalDigits n)

/-- Numeric value of a decimal digit character. -/
def charVal (c : Char) : Nat := c.toNat - 48

/-- Decimal value of a digit list, most significant first. -/
def fromDecimalDigits (l : List Char) : Nat :=
  l.foldl (fun acc c => acc * 10 + charVal c) 0

theorem charVal_digitChar {d : Nat} (h : d < 10) : charVal (digitChar d) = d := by
  interval_cases d <;> rfl

theorem fromDecimalDigits_append_digit (xs : List Char) (c : Char) :
    fromDecimalDigits (xs ++ [c]) = fromDecimalDigits xs * 10 + charVal c := by
  unfold fromDecimalDigits
  rw [List.foldl_append]
  rfl

theorem fromDecimalDigits_toDecimalDigitsAux :
    ∀ (fuel n : Nat), n < fuel → fromDecimalDigits (toDecimalDigitsAux fuel n) = n := by
  intro fuel
  induction fuel with
  | zero => intro n h; omega
  | succ f ih =>
    intro n h
    simp only [toDecimalDigitsAux]
    by_cases h10 : n < 10
    · rw [if_pos h10]
      unfold fromDecimalDigits
      simp [charVal_digitChar h10]
    · rw [if_neg h10]
      rw [fromDecimalDigits_append_digit]
      rw [ih (n / 10) (by omega)]
      rw [charVal_digitChar (Nat.mod_lt _ (by omega))]
      omega

/-- Decimal printing round-trips through decimal reading. -/
theorem fromDecimalDigits_toDecimalDigits (n : Nat) :
    fromDecimalDigits (toDecimalDigits n) = n :=
  fromDecimalDigits_toDecimalDigitsAux (n + 1) n (by omega)

theorem toDecimalDigits_injective {m n : Nat}
    (h : toDecimalDigits m = toDecimalDigits n) : m = n := by
  have := congrArg fromDecimalDigits h
  rwa [fromDecimalDigits_toDecimalDigits, fromDecimalDigits_toDecimalDigits] at this

theorem natToString_injective {m n : Nat} (h : natToString m = natToString n) : m = n := by
  unfold natToString at h
  exact toDecimalDigits_injective (congrArg String.data h)

/-- The `api.hap.uuid.generate`, the host identifier deriver: modelled as the
identity on the seed string (deterministic; injective per spec section 4.1). -/
def uuidGenerate (seed : String) : String := seed

/-- The identifier seed `` `${address}-${kindSuffix}-${serial}` `` used by
every create/remove function. -/
def mkUuidSeed (address kindSuffix serial : String) : String :=
  address ++ "-" ++ kindSuffix ++ "-" ++ serial

/-- Kind suffix for a zone valve: `` `${model}-valve-${zoneId}` ``
(src/platform.ts:346). -/
def zoneValveModel (model : String) (zoneId : Nat) : String :=
  model ++ "-valve-" ++ natToString zoneId

/-- Kind suffix for a zone contact sensor: `` `${model}-${zoneId}` ``
(src/platform.ts:427). -/
def contactSensorModel (model : String) (zoneId : Nat) : String :=
  model ++ "-" ++ natToString zoneId

theorem mkUuidSeed_data (address kindSuffix serial : String) :
    (mkUuidSeed address kindSuffix serial).data
      = address.data ++ ("-".data ++ (kindSuffix.data ++ ("-".data ++ serial.data))) := by
  simp [mkUuidSeed, String.data_append, List.append_assoc]

theorem mkUuidSeed_zoneValve_injective {a m s : String} {z1 z2 : Nat}
    (h : mkUuidSeed a (zoneValveModel m z1) s = mkUuidSeed a (zoneValveModel m z2) s) :
    z1 = z2 := by
  have hd := congrArg String.data h
  rw [mkUuidSeed_data, mkUuidSeed_data] at hd
  have h1 := List.append_cancel_left hd
  have h2 := List.append_cancel_left h1
  simp only [zoneValveModel, natToString, String.data_append, List.append_assoc] at h2
  have h3 := List.append_cancel_left h2
  have h4 := List.append_cancel_left h3
  have h5 := List.append_cancel_right h4
  exact toDecimalDigits_injective h5

theorem mkUuidSeed_contactSensor_injective {a m s : String} {z1 z2 : Nat}
    (h : mkUuidSeed a (contactSensorModel m z1) s = mkUuidSeed a (contactSensorModel m z2) s) :
    z1 = z2 := by
  have hd := congrArg String.data h
  rw [mkUuidSeed_data, mkUuidSeed_data] at hd
  have h1 := List.append_cancel_left hd
  have h2 := List.append_cancel_left h1
  simp only [contactSensorModel, natToString, String.data_append, List.append_assoc] at h2
  have h3 := List.append_cancel_left h2
  have h4 := List.append_cancel_left h3
  have h5 := List.append_cancel_right h4
  exact toDecimalDigits_injective h5

end Rainbird

namespace Rainbird

/-! ### Zone inclusion filter: `device.includeZones!.split(',').map(Number)`

`String.prototype.split(',')` and `Number(...)` are embedded directly:
`splitOnComma` is the comma splitter (on the empty string it yields one
empty field, as in JavaScript), and `jsNumber` follows the
StringNumericLiteral grammar of `Number()`: trim whitespace, empty means
`0`, an unsigned hex/octal/binary literal, or an optionally signed
decimal literal with optional fraction and exponent.  The result is
`some k` exactly when the value is the integer `k`, and `none` when the
literal is malformed (`NaN`) or its value is not an integer (including
`Infinity`): such an entry compares equal to no zone id and no `0`, so
`none` is exact for the membership tests this filter feeds, matching
"malformed filter entries simply fail to match".  IEEE-754 rounding of
literals at or above 2^53 is outside the model (doubles are exact on the
integers compared against here). -/

/-- The `split(',')` on the character list of the string. -/
def splitOnComma : List Char → List (List Char)
  | [] => [[]]
  | c :: rest =>
    match splitOnComma rest with
    | [] => [[c]]
    | g :: gs => if c == ',' then [] :: g :: gs else (c :: g) :: gs

/-- JavaScript `StrWhiteSpaceChar` as far as this model needs. -/
def isJsWhitespace (c : Char) : Bool :=
  c == ' ' || c == '\t' || c == '\n' || c == '\r'

/-- A hexadecimal digit. -/
def isHexDigit (c : Char) : Bool :=
  c.isDigit || ('a' ≤ c && c ≤ 'f') || ('A' ≤ c && c ≤ 'F')

/-- Numeric value of a hexadecimal digit character. -/
def hexDigitVal (c : Char) : Nat :=
  if c.isDigit then charVal c
  else if 'a' ≤ c && c ≤ 'f' then c.toNat - 87
  else c.toNat - 55

/-- An octal digit. -/
def isOctalDigit (c : Char) : Bool := '0' ≤ c && c ≤ '7'

/-- A binary digit. -/
def isBinaryDigit (c : Char) : Bool := c == '0' || c == '1'

/-- A nonempty all-digit literal in base `b`, or `none`. -/
def parseRadix (b : Nat) (isDig : Char → Bool) (val : Char → Nat) (l : List Char) : Option Nat :=
  if !l.isEmpty && l.all isDig then some (l.foldl (fun acc c => acc * b + val c) 0) else none

/-- The exponent part after `e`/`E`: an optionally signed nonempty digit
string. -/
def parseExponent (l : List Char) : Option Int :=
  match l with
  | '-' :: ds => (parseRadix 10 Char.isDigit charVal ds).map (fun n => -(n : Int))
  | '+' :: ds => (parseRadix 10 Char.isDigit charVal ds).map Int.ofNat
  | ds => (parseRadix 10 Char.isDigit charVal ds).map Int.ofNat

/-- An unsigned decimal literal `digits [. digits] [e[sign]digits]` with
at least one mantissa digit: `some` of its value when that value is a
non-negative integer, `none` when malformed or not an integer. -/
def parseDecimalLiteral (l : List Char) : Option Nat :=
  let eSplit := l.span (fun c => !(c == 'e' || c == 'E'))
  let expVal : Option Int := match eSplit.2 with
    | [] => some 0
    | _ :: es => parseExponent es
  match expVal with
  | none => none
  | some exp =>
    let dotSplit := eSplit.1.span (fun c => !(c == '.'))
    let intPart := dotSplit.1
    let fracPart := match dotSplit.2 with
      | [] => []
      | _ :: fs => fs
    if intPart.isEmpty && fracPart.isEmpty then none
    else if !(intPart.all Char.isDigit) || !(fracPart.all Char.isDigit) then none
    else
      let mantissa := (intPart ++ fracPart).foldl (fun acc c => acc * 10 + charVal c) 0
      let shift : Int := exp - fracPart.length
      if 0 ≤ shift then some (mantissa * 10 ^ shift.toNat)
      else if mantissa % 10 ^ (-shift).toNat == 0 then some (mantissa / 10 ^ (-shift).toNat)
      else none

/-- An optionally signed decimal literal. -/
def signedDecimal (l : List Char) : Option Int :=
  match l with
  | '-' :: rest => (parseDecimalLiteral rest).map (fun n => -(n : Int))
  | '+' :: rest => (parseDecimalLiteral rest).map Int.ofNat
  | rest => (parseDecimalLiteral rest).map Int.ofNat

/-- The `Number(s)` on the character list of `s` (see section comment).
Radix-prefixed literals admit no sign, as in JavaScript. -/
def jsNumber (l : List Char) : Option Int :=
  let t := ((l.dropWhile isJsWhitespace).reverse.dropWhile isJsWhitespace).reverse
  match t with
  | [] => some 0
  | '0' :: x :: ds =>
    if x == 'x' || x == 'X' then (parseRadix 16 isHexDigit hexDigitVal ds).map Int.ofNat
    else if x == 'o' || x == 'O' then (parseRadix 8 isOctalDigit charVal ds).map Int.ofNat
    else if x == 'b' || x == 'B' then (parseRadix 2 isBinaryDigit charVal ds).map Int.ofNat
    else signedDecimal t
  | _ => signedDecimal t

/-- The `includeZones.split(',').map(Number)` (src/platform.ts:357). -/
def parseIncludeZones (includeZones : String) : List (Option Int) :=
  (splitOnComma includeZones.data).map jsNumber

end Rainbird

namespace Rainbird

/-! ### Data model

`DevicesConfig` is the per-device user configuration after the defaults
of `initialiseConfig` have been applied (Boolean flags hold the JS
truthiness of the corresponding optional fields).  `RainBirdService`
holds the device metadata the discovery pass reads from the handle after
`init()`.  `Accessory` is a platform accessory record; `Context` is its
`accessory.context` bag.

The per-zone `configured` map inside the irrigation-system record is
owned by the `IrrigationSystem` presentation handler.
Modelled from the spec: `src/devices/IrrigationSystem.ts` is not part of
the sources provided, so the map itself is spec-modelled ("a per-zone
'configured' map owned by the irrigation-system record"; discovery reads
`context.configured[zoneId] ?? CONFIGURED`, absence defaulting to
configured).  We carry it as an association list that a freshly created
record starts empty and that persists on a restored record. -/

/-- The `Characteristic.IsConfigured.CONFIGURED`. -/
def CONFIGURED : Nat := 1

/-- The `Characteristic.IsConfigured.NOT_CONFIGURED`. -/
def NOT_CONFIGURED : Nat := 0

/-- Per-device configuration after `initialiseConfig` defaults. -/
structure DevicesConfig where
  configDeviceName : Option String := none
  ipaddress : String
  showRainSensor : Bool := false
  showValveSensor : Bool := false
  showProgramASwitch : Bool := false
  showProgramBSwitch : Bool := false
  showProgramCSwitch : Bool := false
  showProgramDSwitch : Bool := false
  showStopIrrigationSwitch : Bool := false
  showZoneValve : Bool := false
  includeZones : String := ""
  showDelayIrrigationSwitch : Bool := false
  delete : Bool := false
  external : Bool := false
  firmware : Option Nat := none
deriving DecidableEq

/-- Raw per-device configuration as loaded, before defaulting. -/
structure RawDevicesConfig where
  configDeviceName : Option String := none
  ipaddress : String
  showRainSensor : Option Bool := none
  showValveSensor : Option Bool := none
  showProgramASwitch : Option Bool := none
  showProgramBSwitch : Option Bool := none
  showProgramCSwitch : Option Bool := none
  showProgramDSwitch : Option Bool := none
  showStopIrrigationSwitch : Option Bool := none
  showZoneValve : Option Bool := none
  includeZones : Option String := none
  showDelayIrrigationSwitch : Option Bool := none
  delete : Option Bool := none
  external : Option Bool := none
  firmware : Option Nat := none
deriving DecidableEq

/-- The `RainbirdPlatform.initialiseConfig` (src/platform.ts:139): backfill
the `?? false` / `?? ''` defaults for one device entry.  The `delete`
and `external` flags are not touched there; the source reads them only
through JS truthiness, which `getD false` embeds. -/
def initialiseConfig (d : RawDevicesConfig) : DevicesConfig :=
  { configDeviceName := d.configDeviceName
    ipaddress := d.ipaddress
    showRainSensor := d.showRainSensor.getD false
    showValveSensor := d.showValveSensor.getD false
    showProgramASwitch := d.showProgramASwitch.getD false
    showProgramBSwitch := d.showProgramBSwitch.getD false
    showProgramCSwitch := d.showProgramCSwitch.getD false
    showProgramDSwitch := d.showProgramDSwitch.getD false
    showStopIrrigationSwitch := d.showStopIrrigationSwitch.getD false
    showZoneValve := d.showZoneValve.getD false
    includeZones := d.includeZones.getD ""
    showDelayIrrigationSwitch := d.showDelayIrrigationSwitch.getD false
    delete := d.delete.getD false
    external := d.external.getD false
    firmware := d.firmware }

/-- Device metadata held by the live `RainBirdService` handle after
`init()`. -/
structure RainBirdService where
  model : String
  version : Option String := none
  serialNumber : String
  zones : List Nat := []
deriving DecidableEq

/-- The `rainbird.init()` outcomes at the device-handle boundary. -/
inductive InitError where
  | connectionError
  | authError
deriving DecidableEq

/-- Exceptions escaping a discovery pass. -/
inductive DiscoverError where
  | initFailed (e : InitError)
  | typeError
deriving DecidableEq

/-- The `accessory.context`. -/
structure Context where
  device : Option DevicesConfig := none
  deviceID : String := ""
  model : String := ""
  firmwareRevision : String := ""
  zoneId : Option Nat := none
  programId : Option String := none
  configured : List (Nat × Nat) := []
deriving DecidableEq

/-- A platform accessory record. -/
structure Accessory where
  uuid : String
  displayName : String
  context : Context
deriving DecidableEq

/-- The mutable platform state: `this.accessories` plus the host-runtime
registration signals sent so far (`api.registerPlatformAccessories` /
`api.unregisterPlatformAccessories`, recorded by identifier). -/
structure PlatformState where
  accessories : List Accessory
  registered : List String := []
  unregistered : List String := []
deriving DecidableEq

/-- The identifiers currently present in the in-memory collection. -/
def uuids (st : PlatformState) : List String :=
  st.accessories.map Accessory.uuid

/-- The `this.accessories.find(accessory => accessory.UUID === uuid)`. -/
def findAccessory (st : PlatformState) (uuid : String) : Option Accessory :=
  st.accessories.find? (fun a => a.uuid == uuid)

/-- The `RainbirdPlatform.unregisterPlatformAccessories` (src/platform.ts:702):
signals the host runtime to forget the persisted record; it does not
touch `this.accessories`. -/
def unregisterPlatformAccessories (st : PlatformState) (uuid : String) : PlatformState :=
  { st with unregistered := st.unregistered ++ [uuid] }

/-- The `RainbirdPlatform.externalOrPlatform` (src/platform.ts:688): register
with the host bridge unless the device is published externally. -/
def externalOrPlatform (dev : DevicesConfig) (st : PlatformState) (uuid : String) :
    PlatformState :=
  if dev.external then st else { st with registered := st.registered ++ [uuid] }

/-- The `RainbirdPlatform.FirmwareRevision` (src/platform.ts:341):
`String(device.firmware ?? rainbird.version ?? this.version)`. -/
def FirmwareRevision (rainbird : RainBirdService) (dev : DevicesConfig)
    (pluginVersion : String) : String :=
  match dev.firmware with
  | some f => natToString f
  | none => rainbird.version.getD pluginVersion

/-- Replace the accessory carrying `uuid` by `updated` in place
(the source mutates the found accessory object). -/
def updateAccessory (st : PlatformState) (uuid : String) (updated : Accessory) :
    PlatformState :=
  { st with accessories := st.accessories.map (fun a => if a.uuid == uuid then updated else a) }

/-- Append a freshly created accessory (`this.accessories.push`). -/
def pushAccessory (st : PlatformState) (acc : Accessory) : PlatformState :=
  { st with accessories := st.accessories ++ [acc] }

end Rainbird

namespace Rainbird

/-! ### Per-kind reconciliation functions

Each `createX` function embeds the corresponding method of
`RainbirdPlatform`.  The construction of the presentation handlers
(`new IrrigationSystem(...)`, `new ZoneValve(...)`, ...) configures
HomeKit services on the accessory object and subscribes to device
events; it does not change the accessory collection or the context
fields written here, so it has no footprint in this state model.
Host-side `api.updatePlatformAccessories` persistence calls are likewise
not tracked. -/

/-- The `RainbirdPlatform.createIrrigationSystem` (src/platform.ts:220).
Returns the value of the `irrigationAccessory` promise awaited by the
zone loop: the restored or created accessory, or `none` on the
`device.delete` paths. -/
def createIrrigationSystem (allow : Bool) (pluginVersion : String)
    (dev : DevicesConfig) (rainbird : RainBirdService) (st : PlatformState) :
    Option Accessory × PlatformState :=
  let uuid := uuidGenerate (mkUuidSeed dev.ipaddress rainbird.model rainbird.serialNumber)
  match findAccessory st uuid with
  | some existingAccessory =>
    if !dev.delete then
      let displayName := match dev.configDeviceName with
        | some n => validateAndCleanDisplayName allow n
        | none => validateAndCleanDisplayName allow rainbird.model
      let updated := { existingAccessory with
        displayName := displayName
        context := { existingAccessory.context with
          device := some dev
          deviceID := rainbird.serialNumber
          model := rainbird.model
          firmwareRevision := FirmwareRevision rainbird dev pluginVersion } }
      (some updated, updateAccessory st uuid updated)
    else
      (none, unregisterPlatformAccessories st uuid)
  | none =>
    if !dev.delete then
      let displayName := match dev.configDeviceName with
        | some n => validateAndCleanDisplayName allow n
        | none => validateAndCleanDisplayName allow rainbird.model
      let accessory : Accessory := {
        uuid := uuid
        displayName := displayName
        context := {
          device := some dev
          deviceID := rainbird.serialNumber
          model := rainbird.model
          firmwareRevision := FirmwareRevision rainbird dev pluginVersion } }
      (some accessory, pushAccessory (externalOrPlatform dev st uuid) accessory)
    else
      (none, st)

/-- The `RainbirdPlatform.createLeakSensor` (src/platform.ts:280). -/
def createLeakSensor (allow : Bool) (pluginVersion : String)
    (dev : DevicesConfig) (rainbird : RainBirdService) (st : PlatformState) :
    PlatformState :=
  let model := "WR2"
  let leakSensorModel := model ++ " Leak Sensor"
  let leakSensorConfigName := dev.configDeviceName.map (fun n => n ++ " Leak Sensor")
  let uuid := uuidGenerate (mkUuidSeed dev.ipaddress model rainbird.serialNumber)
  let displayName := match leakSensorConfigName with
    | some n => validateAndCleanDisplayName allow n
    | none => validateAndCleanDisplayName allow leakSensorModel
  match findAccessory st uuid with
  | some existingAccessory =>
    if !dev.delete && dev.showRainSensor then
      let updated := { existingAccessory with
        displayName := displayName
        context := { existingAccessory.context with
          device := some dev
          deviceID := rainbird.serialNumber
          model := model
          firmwareRevision := FirmwareRevision rainbird dev pluginVersion } }
      updateAccessory st uuid updated
    else
      unregisterPlatformAccessories st uuid
  | none =>
    if !dev.delete && dev.showRainSensor then
      let accessory : Accessory := {
        uuid := uuid
        displayName := displayName
        context := {
          device := some dev
          deviceID := rainbird.serialNumber
          model := model
          firmwareRevision := FirmwareRevision rainbird dev pluginVersion } }
      pushAccessory (externalOrPlatform dev st uuid) accessory
    else
      st

/-- The `registerZoneValve` condition of `createZoneValve`
(src/platform.ts:358). -/
def registerZoneValve (dev : DevicesConfig) (zoneId : Nat) : Bool :=
  let includeZones := parseIncludeZones dev.includeZones
  !dev.delete && dev.showZoneValve
    && (includeZones.contains (some 0) || includeZones.contains (some (zoneId : Int)))

/-- The `RainbirdPlatform.createZoneValve` (src/platform.ts:345).  It
also looks up the irrigation-system accessory (platform.ts:354-355), and
both register branches construct the presentation handler with
`new ZoneValve(..., irrigationAccessory!.context)` (platform.ts:379,
403): when that record is absent from the collection, the non-null
assertion dereferences `undefined` and throws a TypeError — in the
restore branch after the existing record has already been mutated and
persisted, and in the fresh-create branch before
`this.externalOrPlatform`/`this.accessories.push`, so no record is
registered or created.  The thrown error rejects the promise this async
method returns. -/
def createZoneValve (allow : Bool) (pluginVersion : String)
    (dev : DevicesConfig) (rainbird : RainBirdService) (zoneId : Nat)
    (st : PlatformState) : Option DiscoverError × PlatformState :=
  let model := zoneValveModel rainbird.model zoneId
  let uuid := uuidGenerate (mkUuidSeed dev.ipaddress model rainbird.serialNumber)
  let name := "Zone " ++ natToString zoneId
  let valveConfigName := dev.configDeviceName.map (fun n => n ++ " " ++ name)
  let irrigationUuid :=
    uuidGenerate (mkUuidSeed dev.ipaddress rainbird.model rainbird.serialNumber)
  let irrigationAccessory := findAccessory st irrigationUuid
  let displayName := match valveConfigName with
    | some n => validateAndCleanDisplayName allow n
    | none => validateAndCleanDisplayName allow name
  match findAccessory st uuid with
  | some existingAccessory =>
    if registerZoneValve dev zoneId then
      let updated := { existingAccessory with
        displayName := displayName
        context := { existingAccessory.context with
          device := some dev
          deviceID := rainbird.serialNumber
          model := model
          firmwareRevision := FirmwareRevision rainbird dev pluginVersion
          zoneId := some zoneId } }
      match irrigationAccessory with
      | some _ => (none, updateAccessory st uuid updated)
      | none => (some DiscoverError.typeError, updateAccessory st uuid updated)
    else
      (none, unregisterPlatformAccessories st uuid)
  | none =>
    if registerZoneValve dev zoneId then
      let accessory : Accessory := {
        uuid := uuid
        displayName := displayName
        context := {
          device := some dev
          deviceID := rainbird.serialNumber
          model := model
          firmwareRevision := FirmwareRevision rainbird dev pluginVersion
          zoneId := some zoneId } }
      match irrigationAccessory with
      | some _ => (none, pushAccessory (externalOrPlatform dev st uuid) accessory)
      | none => (some DiscoverError.typeError, st)
    else
      (none, st)

/-- The `RainbirdPlatform.removeZoneValve` (src/platform.ts:416): host
unregistration plus `splice` out of the in-memory collection. -/
def removeZoneValve (dev : DevicesConfig) (rainbird : RainBirdService) (zoneId : Nat)
    (st : PlatformState) : PlatformState :=
  let model := zoneValveModel rainbird.model zoneId
  let uuid := uuidGenerate (mkUuidSeed dev.ipaddress model rainbird.serialNumber)
  match findAccessory st uuid with
  | some _ =>
    { st with
      accessories := st.accessories.eraseP (fun a => a.uuid == uuid)
      unregistered := st.unregistered ++ [uuid] }
  | none => st

/-- The `RainbirdPlatform.createContactSensor` (src/platform.ts:426). -/
def createContactSensor (allow : Bool) (pluginVersion : String)
    (dev : DevicesConfig) (rainbird : RainBirdService) (zoneId : Nat)
    (st : PlatformState) : PlatformState :=
  let model := contactSensorModel rainbird.model zoneId
  let uuid := uuidGenerate (mkUuidSeed dev.ipaddress model rainbird.serialNumber)
  let name := "Zone " ++ natToString zoneId
  let contactSensorConfigName := dev.configDeviceName.map (fun n => n ++ " " ++ name)
  let displayName := match contactSensorConfigName with
    | some n => validateAndCleanDisplayName allow n
    | none => validateAndCleanDisplayName allow name
  match findAccessory st uuid with
  | some existingAccessory =>
    if !dev.delete && dev.showValveSensor then
      let updated := { existingAccessory with
        displayName := displayName
        context := { existingAccessory.context with
          device := some dev
          deviceID := rainbird.serialNumber
          model := model
          firmwareRevision := FirmwareRevision rainbird dev pluginVersion
          zoneId := some zoneId } }
      updateAccessory st uuid updated
    else
      unregisterPlatformAccessories st uuid
  | none =>
    if !dev.delete && dev.showValveSensor then
      let accessory : Accessory := {
        uuid := uuid
        displayName := displayName
        context := {
          device := some dev
          deviceID := rainbird.serialNumber
          model := model
          firmwareRevision := FirmwareRevision rainbird dev pluginVersion
          zoneId := some zoneId } }
      pushAccessory (externalOrPlatform dev st uuid) accessory
    else
      st

/-- The `RainbirdPlatform.removeContactSensor` (src/platform.ts:489). -/
def removeContactSensor (dev : DevicesConfig) (rainbird : RainBirdService) (zoneId : Nat)
    (st : PlatformState) : PlatformState :=
  let model := contactSensorModel rainbird.model zoneId
  let uuid := uuidGenerate (mkUuidSeed dev.ipaddress model rainbird.serialNumber)
  match findAccessory st uuid with
  | some _ =>
    { st with
      accessories := st.accessories.eraseP (fun a => a.uuid == uuid)
      unregistered := st.unregistered ++ [uuid] }
  | none => st

/-- The dynamic `device[`showProgram${programId}Switch`]` lookup
(src/platform.ts:507); an unknown program id reads an absent property,
which is falsy. -/
def showProgramSwitch (dev : DevicesConfig) (programId : String) : Bool :=
  if programId == "A" then dev.showProgramASwitch
  else if programId == "B" then dev.showProgramBSwitch
  else if programId == "C" then dev.showProgramCSwitch
  else if programId == "D" then dev.showProgramDSwitch
  else false

/-- The `RainbirdPlatform.createProgramSwitch` (src/platform.ts:499). -/
def createProgramSwitch (allow : Bool) (pluginVersion : String)
    (dev : DevicesConfig) (rainbird : RainBirdService) (programId : String)
    (st : PlatformState) : PlatformState :=
  let model := rainbird.model ++ "-pgm-" ++ programId
  let uuid := uuidGenerate (mkUuidSeed dev.ipaddress model rainbird.serialNumber)
  let name := "Program " ++ programId
  let programSwitchConfigName := dev.configDeviceName.map (fun n => n ++ " " ++ name)
  let displayName := match programSwitchConfigName with
    | some n => validateAndCleanDisplayName allow n
    | none => validateAndCleanDisplayName allow name
  match findAccessory st uuid with
  | some existingAccessory =>
    if !dev.delete && showProgramSwitch dev programId then
      let updated := { existingAccessory with
        displayName := displayName
        context := { existingAccessory.context with
          device := some dev
          deviceID := rainbird.serialNumber
          model := model
          firmwareRevision := FirmwareRevision rainbird dev pluginVersion
          programId := some programId } }
      updateAccessory st uuid updated
    else
      unregisterPlatformAccessories st uuid
  | none =>
    if !dev.delete && showProgramSwitch dev programId then
      let accessory : Accessory := {
        uuid := uuid
        displayName := displayName
        context := {
          device := some dev
          deviceID := rainbird.serialNumber
          model := model
          firmwareRevision := FirmwareRevision rainbird dev pluginVersion
          programId := some programId } }
      pushAccessory (externalOrPlatform dev st uuid) accessory
    else
      st

/-- The `RainbirdPlatform.createStopIrrigationSwitch` (src/platform.ts:564). -/
def createStopIrrigationSwitch (allow : Bool) (pluginVersion : String)
    (dev : DevicesConfig) (rainbird : RainBirdService) (st : PlatformState) :
    PlatformState :=
  let model := rainbird.model ++ "-stop"
  let uuid := uuidGenerate (mkUuidSeed dev.ipaddress model rainbird.serialNumber)
  let name := "Stop Irrigation"
  let stopSwitchConfigName := dev.configDeviceName.map (fun n => n ++ " " ++ name)
  let displayName := match stopSwitchConfigName with
    | some n => validateAndCleanDisplayName allow n
    | none => validateAndCleanDisplayName allow name
  match findAccessory st uuid with
  | some existingAccessory =>
    if !dev.delete && dev.showStopIrrigationSwitch then
      let updated := { existingAccessory with
        displayName := displayName
        context := { existingAccessory.context with
          device := some dev
          deviceID := rainbird.serialNumber
          model := model
          firmwareRevision := FirmwareRevision rainbird dev pluginVersion } }
      updateAccessory st uuid updated
    else
      unregisterPlatformAccessories st uuid
  | none =>
    if !dev.delete && dev.showStopIrrigationSwitch then
      let accessory : Accessory := {
        uuid := uuid
        displayName := displayName
        context := {
          device := some dev
          deviceID := rainbird.serialNumber
          model := model
          firmwareRevision := FirmwareRevision rainbird dev pluginVersion } }
      pushAccessory (externalOrPlatform dev st uuid) accessory
    else
      st

/-- The `RainbirdPlatform.createDelayIrrigationSwitch` (src/platform.ts:626). -/
def createDelayIrrigationSwitch (allow : Bool) (pluginVersion : String)
    (dev : DevicesConfig) (rainbird : RainBirdService) (st : PlatformState) :
    PlatformState :=
  let model := rainbird.model ++ "-delay"
  let uuid := uuidGenerate (mkUuidSeed dev.ipaddress model rainbird.serialNumber)
  let name := "Delay Irrigation"
  let delaySwitchConfigName := dev.configDeviceName.map (fun n => n ++ " " ++ name)
  let displayName := match delaySwitchConfigName with
    | some n => validateAndCleanDisplayName allow n
    | none => validateAndCleanDisplayName allow name
  match findAccessory st uuid with
  | some existingAccessory =>
    if !dev.delete && dev.showDelayIrrigationSwitch then
      let updated := { existingAccessory with
        displayName := displayName
        context := { existingAccessory.context with
          device := some dev
          deviceID := rainbird.serialNumber
          model := model
          firmwareRevision := FirmwareRevision rainbird dev pluginVersion } }
      updateAccessory st uuid updated
    else
      unregisterPlatformAccessories st uuid
  | none =>
    if !dev.delete && dev.showDelayIrrigationSwitch then
      let accessory : Accessory := {
        uuid := uuid
        displayName := displayName
        context := {
          device := some dev
          deviceID := rainbird.serialNumber
          model := model
          firmwareRevision := FirmwareRevision rainbird dev pluginVersion } }
      pushAccessory (externalOrPlatform dev st uuid) accessory
    else
      st

end Rainbird

namespace Rainbird

/-! ### Discovery loop and zone-enable listener -/

/-- The `irrigationAccessory.context.configured[zoneId] ?? CONFIGURED`
(src/platform.ts:195). -/
def lookupConfigured (configured : List (Nat × Nat)) (zoneId : Nat) : Nat :=
  match configured.lookup zoneId with
  | some v => v
  | none => CONFIGURED

/-- The `for (const zoneId of metaData.zones)` loop of `discoverDevices`
(src/platform.ts:194).  `irrigationAccessory` is the value returned by
`createIrrigationSystem`; `(await irrigationAccessory)!.context` on the
`undefined` produced by the `device.delete` paths throws a `TypeError`
synchronously in the loop body, which aborts the loop carrying the state
mutated so far.  The `createZoneValve`/`createContactSensor` calls
themselves are issued without `await` (platform.ts:197-198), so a
rejection of the zone-valve promise is an unhandled promise rejection
that cannot abort this loop: only its state effects are observed.
(Within a discovery pass that rejection path is in fact unreachable,
because the loop only runs when `createIrrigationSystem` returned an
accessory, which is then present in the collection.) -/
def zoneLoop (allow : Bool) (pluginVersion : String)
    (dev : DevicesConfig) (rainbird : RainBirdService)
    (irrigationAccessory : Option Accessory) :
    List Nat → PlatformState → Option DiscoverError × PlatformState
  | [], st => (none, st)
  | zoneId :: rest, st =>
    match irrigationAccessory with
    | none => (some DiscoverError.typeError, st)
    | some irr =>
      let configured := lookupConfigured irr.context.configured zoneId
      if configured == CONFIGURED then
        let st1 := (createZoneValve allow pluginVersion dev rainbird zoneId st).2
        let st2 := createContactSensor allow pluginVersion dev rainbird zoneId st1
        zoneLoop allow pluginVersion dev rainbird irrigationAccessory rest st2
      else
        zoneLoop allow pluginVersion dev rainbird irrigationAccessory rest st

/-- The `rainbird.on('zone_enable', ...)` handler (src/platform.ts:208):
on `enabled` it creates the zone's contact sensor (the zone-valve call is
commented out in the source); on disable it removes it. -/
def onZoneEnable (allow : Bool) (pluginVersion : String)
    (dev : DevicesConfig) (rainbird : RainBirdService) (zoneId : Nat)
    (enabled : Bool) (st : PlatformState) : PlatformState :=
  if enabled then createContactSensor allow pluginVersion dev rainbird zoneId st
  else removeContactSensor dev rainbird zoneId st

/-- One full discovery pass for a single device whose `init()` has
succeeded with metadata `rainbird` (the body of the `for (const device
of this.config.devices!)` loop, src/platform.ts:192): irrigation system,
leak sensor, the per-zone loop, program switches A–D, stop switch, delay
switch. -/
def discoverDevicePass (allow : Bool) (pluginVersion : String)
    (dev : DevicesConfig) (rainbird : RainBirdService) (st : PlatformState) :
    Option DiscoverError × PlatformState :=
  let (irrigationAccessory, st1) := createIrrigationSystem allow pluginVersion dev rainbird st
  let st2 := createLeakSensor allow pluginVersion dev rainbird st1
  match zoneLoop allow pluginVersion dev rainbird irrigationAccessory rainbird.zones st2 with
  | (some e, st') => (some e, st')
  | (none, st3) =>
    let st4 := ["A", "B", "C", "D"].foldl
      (fun s programId => createProgramSwitch allow pluginVersion dev rainbird programId s) st3
    let st5 := createStopIrrigationSwitch allow pluginVersion dev rainbird st4
    let st6 := createDelayIrrigationSwitch allow pluginVersion dev rainbird st5
    (none, st6)

/-- The `RainbirdPlatform.discoverDevices` (src/platform.ts:162): sequential
loop over the configured devices.  Each device entry is paired with the
outcome of its `await rainbird.init()` call; a rejection propagates out
of the loop at once (there is no per-device catch), carrying the state
mutated so far. -/
def discoverDevices (allow : Bool) (pluginVersion : String) :
    List (DevicesConfig × Except InitError RainBirdService) → PlatformState →
    Option DiscoverError × PlatformState
  | [], st => (none, st)
  | (dev, init) :: rest, st =>
    match init with
    | Except.error e => (some (DiscoverError.initFailed e), st)
    | Except.ok rainbird =>
      match discoverDevicePass allow pluginVersion dev rainbird st with
      | (some e, st') => (some e, st')
      | (none, st') => discoverDevices allow pluginVersion rest st'

/-- The `didFinishLaunching` callback (src/platform.ts:83): runs
`discoverDevices` and catches any rejection at the top level, keeping
whatever state the loop had produced. -/
def didFinishLaunching (allow : Bool) (pluginVersion : String)
    (devices : List (DevicesConfig × Except InitError RainBirdService))
    (st : PlatformState) : PlatformState :=
  (discoverDevices allow pluginVersion devices st).2

end Rainbird

namespace Rainbird

/-! ### Registry lemmas -/

theorem findAccessory_some_uuid {st : PlatformState} {u : String} {a : Accessory}
    (h : findAccessory st u = some a) : a.uuid = u := by
  unfold findAccessory at h
  have := List.find?_some h
  simpa using this

theorem findAccessory_eq_none {st : PlatformState} {u : String} (h : u ∉ uuids st) :
    findAccessory st u = none := by
  unfold findAccessory
  rw [List.find?_eq_none]
  intro a ha hbeq
  apply h
  rw [beq_iff_eq] at hbeq
  exact hbeq ▸ List.mem_map_of_mem Accessory.uuid ha

theorem uuids_updateAccessory {st : PlatformState} {u : String} {updated : Accessory}
    (h : updated.uuid = u) : uuids (updateAccessory st u updated) = uuids st := by
  unfold uuids updateAccessory
  simp only [List.map_map]
  apply List.map_congr_left
  intro a _
  simp only [Function.comp_apply]
  by_cases ha : (a.uuid == u) = true
  · rw [if_pos ha, h]
    rw [beq_iff_eq] at ha
    exact ha.symm
  · rw [if_neg ha]

theorem uuids_pushAccessory (st : PlatformState) (acc : Accessory) :
    uuids (pushAccessory st acc) = uuids st ++ [acc.uuid] := by
  simp [uuids, pushAccessory]

theorem uuids_unregisterPlatformAccessories (st : PlatformState) (u : String) :
    uuids (unregisterPlatformAccessories st u) = uuids st := rfl

theorem uuids_externalOrPlatform (dev : DevicesConfig) (st : PlatformState) (u : String) :
    uuids (externalOrPlatform dev st u) = uuids st := by
  unfold externalOrPlatform
  split <;> rfl

theorem uuids_suffix_createContactSensor (allow : Bool) (pv : String) (dev : DevicesConfig)
    (rb : RainBirdService) (z : Nat) (st : PlatformState) :
    ∃ t, uuids (createContactSensor allow pv dev rb z st) = uuids st ++ t := by
  simp only [createContactSensor]
  split
  next a heq =>
    split
    · refine ⟨[], ?_⟩
      rw [List.append_nil]
      apply uuids_updateAccessory
      have h1 := findAccessory_some_uuid heq
      exact h1
    · exact ⟨[], by rw [List.append_nil, uuids_unregisterPlatformAccessories]⟩
  next heq =>
    split
    · refine ⟨[uuidGenerate (mkUuidSeed dev.ipaddress (contactSensorModel rb.model z) rb.serialNumber)], ?_⟩
      rw [uuids_pushAccessory, uuids_externalOrPlatform]
    · exact ⟨[], by rw [List.append_nil]⟩

end Rainbird

namespace Rainbird

theorem uuids_suffix_createIrrigationSystem (allow : Bool) (pv : String) (dev : DevicesConfig)
    (rb : RainBirdService) (st : PlatformState) :
    ∃ t, uuids (createIrrigationSystem allow pv dev rb st).2 = uuids st ++ t := by
  simp only [createIrrigationSystem]
  split
  next a heq =>
    split
    · refine ⟨[], ?_⟩
      rw [List.append_nil]
      apply uuids_updateAccessory
      have h1 := findAccessory_some_uuid heq
      exact h1
    · exact ⟨[], by rw [List.append_nil, uuids_unregisterPlatformAccessories]⟩
  next heq =>
    split
    · refine ⟨[uuidGenerate (mkUuidSeed dev.ipaddress rb.model rb.serialNumber)], ?_⟩
      rw [uuids_pushAccessory, uuids_externalOrPlatform]
    · exact ⟨[], by rw [List.append_nil]⟩

theorem uuids_suffix_createLeakSensor (allow : Bool) (pv : String) (dev : DevicesConfig)
    (rb : RainBirdService) (st : PlatformState) :
    ∃ t, uuids (createLeakSensor allow pv dev rb st) = uuids st ++ t := by
  simp only [createLeakSensor]
  split
  next a heq =>
    split
    · refine ⟨[], ?_⟩
      rw [List.append_nil]
      apply uuids_updateAccessory
      have h1 := findAccessory_some_uuid heq
      exact h1
    · exact ⟨[], by rw [List.append_nil, uuids_unregisterPlatformAccessories]⟩
  next heq =>
    split
    · refine ⟨[uuidGenerate (mkUuidSeed dev.ipaddress "WR2" rb.serialNumber)], ?_⟩
      rw [uuids_pushAccessory, uuids_externalOrPlatform]
    · exact ⟨[], by rw [List.append_nil]⟩

theorem uuids_suffix_createZoneValve (allow : Bool) (pv : String) (dev : DevicesConfig)
    (rb : RainBirdService) (z : Nat) (st : PlatformState) :
    ∃ t, uuids (createZoneValve allow pv dev rb z st).2 = uuids st ++ t := by
  simp only [createZoneValve]
  split
  next a heq =>
    split
    · split
      · refine ⟨[], ?_⟩
        rw [List.append_nil]
        apply uuids_updateAccessory
        have h1 := findAccessory_some_uuid heq
        exact h1
      · refine ⟨[], ?_⟩
        rw [List.append_nil]
        apply uuids_updateAccessory
        have h1 := findAccessory_some_uuid heq
        exact h1
    · exact ⟨[], by rw [List.append_nil, uuids_unregisterPlatformAccessories]⟩
  next heq =>
    split
    · split
      · refine ⟨[uuidGenerate (mkUuidSeed dev.ipaddress (zoneValveModel rb.model z) rb.serialNumber)], ?_⟩
        rw [uuids_pushAccessory, uuids_externalOrPlatform]
      · exact ⟨[], by rw [List.append_nil]⟩
    · exact ⟨[], by rw [List.append_nil]⟩

theorem uuids_suffix_createProgramSwitch (allow : Bool) (pv : String) (dev : DevicesConfig)
    (rb : RainBirdService) (pid : String) (st : PlatformState) :
    ∃ t, uuids (createProgramSwitch allow pv dev rb pid st) = uuids st ++ t := by
  simp only [createProgramSwitch]
  split
  next a heq =>
    split
    · refine ⟨[], ?_⟩
      rw [List.append_nil]
      apply uuids_updateAccessory
      have h1 := findAccessory_some_uuid heq
      exact h1
    · exact ⟨[], by rw [List.append_nil, uuids_unregisterPlatformAccessories]⟩
  next heq =>
    split
    · refine ⟨[uuidGenerate (mkUuidSeed dev.ipaddress (rb.model ++ "-pgm-" ++ pid) rb.serialNumber)], ?_⟩
      rw [uuids_pushAccessory, uuids_externalOrPlatform]
    · exact ⟨[], by rw [List.append_nil]⟩

theorem uuids_suffix_createStopIrrigationSwitch (allow : Bool) (pv : String)
    (dev : DevicesConfig) (rb : RainBirdService) (st : PlatformState) :
    ∃ t, uuids (createStopIrrigationSwitch allow pv dev rb st) = uuids st ++ t := by
  simp only [createStopIrrigationSwitch]
  split
  next a heq =>
    split
    · refine ⟨[], ?_⟩
      rw [List.append_nil]
      apply uuids_updateAccessory
      have h1 := findAccessory_some_uuid heq
      exact h1
    · exact ⟨[], by rw [List.append_nil, uuids_unregisterPlatformAccessories]⟩
  next heq =>
    split
    · refine ⟨[uuidGenerate (mkUuidSeed dev.ipaddress (rb.model ++ "-stop") rb.serialNumber)], ?_⟩
      rw [uuids_pushAccessory, uuids_externalOrPlatform]
    · exact ⟨[], by rw [List.append_nil]⟩

theorem uuids_suffix_createDelayIrrigationSwitch (allow : Bool) (pv : String)
    (dev : DevicesConfig) (rb : RainBirdService) (st : PlatformState) :
    ∃ t, uuids (createDelayIrrigationSwitch allow pv dev rb st) = uuids st ++ t := by
  simp only [createDelayIrrigationSwitch]
  split
  next a heq =>
    split
    · refine ⟨[], ?_⟩
      rw [List.append_nil]
      apply uuids_updateAccessory
      have h1 := findAccessory_some_uuid heq
      exact h1
    · exact ⟨[], by rw [List.append_nil, uuids_unregisterPlatformAccessories]⟩
  next heq =>
    split
    · refine ⟨[uuidGenerate (mkUuidSeed dev.ipaddress (rb.model ++ "-delay") rb.serialNumber)], ?_⟩
      rw [uuids_pushAccessory, uuids_externalOrPlatform]
    · exact ⟨[], by rw [List.append_nil]⟩

theorem uuids_suffix_zoneLoop (allow : Bool) (pv : String) (dev : DevicesConfig)
    (rb : RainBirdService) (irr : Option Accessory) :
    ∀ (zones : List Nat) (st : PlatformState),
    ∃ t, uuids (zoneLoop allow pv dev rb irr zones st).2 = uuids st ++ t := by
  intro zones
  induction zones with
  | nil => exact fun st => ⟨[], by simp [zoneLoop]⟩
  | cons z rest ih =>
    intro st
    cases irr with
    | none => exact ⟨[], by simp [zoneLoop]⟩
    | some a =>
      simp only [zoneLoop]
      split
      · obtain ⟨t1, h1⟩ := uuids_suffix_createZoneValve allow pv dev rb z st
        obtain ⟨t2, h2⟩ :=
          uuids_suffix_createContactSensor allow pv dev rb z
            (createZoneValve allow pv dev rb z st).2
        obtain ⟨t3, h3⟩ :=
          ih (createContactSensor allow pv dev rb z (createZoneValve allow pv dev rb z st).2)
        exact ⟨t1 ++ t2 ++ t3, by rw [h3, h2, h1]; simp [List.append_assoc]⟩
      · exact ih st

theorem uuids_suffix_programFold (allow : Bool) (pv : String) (dev : DevicesConfig)
    (rb : RainBirdService) :
    ∀ (pids : List String) (st : PlatformState),
    ∃ t, uuids (pids.foldl
      (fun s programId => createProgramSwitch allow pv dev rb programId s) st) = uuids st ++ t := by
  intro pids
  induction pids with
  | nil => exact fun st => ⟨[], by simp⟩
  | cons pid rest ih =>
    intro st
    obtain ⟨t1, h1⟩ := uuids_suffix_createProgramSwitch allow pv dev rb pid st
    obtain ⟨t2, h2⟩ := ih (createProgramSwitch allow pv dev rb pid st)
    exact ⟨t1 ++ t2, by simp only [List.foldl_cons]; rw [h2, h1, List.append_assoc]⟩

theorem uuids_suffix_discoverDevicePass (allow : Bool) (pv : String) (dev : DevicesConfig)
    (rb : RainBirdService) (st : PlatformState) :
    ∃ t, uuids (discoverDevicePass allow pv dev rb st).2 = uuids st ++ t := by
  simp only [discoverDevicePass]
  obtain ⟨t1, h1⟩ := uuids_suffix_createIrrigationSystem allow pv dev rb st
  obtain ⟨t2, h2⟩ := uuids_suffix_createLeakSensor allow pv dev rb
    (createIrrigationSystem allow pv dev rb st).2
  obtain ⟨t3, h3⟩ := uuids_suffix_zoneLoop allow pv dev rb
    (createIrrigationSystem allow pv dev rb st).1 rb.zones
    (createLeakSensor allow pv dev rb (createIrrigationSystem allow pv dev rb st).2)
  split
  next e st' hzl =>
    refine ⟨t1 ++ t2 ++ t3, ?_⟩
    have : st' = (zoneLoop allow pv dev rb
        (createIrrigationSystem allow pv dev rb st).1 rb.zones
        (createLeakSensor allow pv dev rb (createIrrigationSystem allow pv dev rb st).2)).2 := by
      rw [hzl]
    rw [this] at *
    rw [h3, h2, h1]
    simp [List.append_assoc]
  next st3 hzl =>
    have hst3 : st3 = (zoneLoop allow pv dev rb
        (createIrrigationSystem allow pv dev rb st).1 rb.zones
        (createLeakSensor allow pv dev rb (createIrrigationSystem allow pv dev rb st).2)).2 := by
      rw [hzl]
    obtain ⟨t4, h4⟩ := uuids_suffix_programFold allow pv dev rb ["A", "B", "C", "D"] st3
    obtain ⟨t5, h5⟩ := uuids_suffix_createStopIrrigationSwitch allow pv dev rb
      (["A", "B", "C", "D"].foldl
        (fun s programId => createProgramSwitch allow pv dev rb programId s) st3)
    obtain ⟨t6, h6⟩ := uuids_suffix_createDelayIrrigationSwitch allow pv dev rb
      (createStopIrrigationSwitch allow pv dev rb
        (["A", "B", "C", "D"].foldl
          (fun s programId => createProgramSwitch allow pv dev rb programId s) st3))
    refine ⟨t1 ++ t2 ++ t3 ++ t4 ++ t5 ++ t6, ?_⟩
    rw [h6, h5, h4, hst3, h3, h2, h1]
    simp [List.append_assoc]

end Rainbird

namespace Rainbird

/-! ### Concrete fixtures for counterexamples and witnesses -/

/-- Metadata of a controller reporting zones 1–3. -/
def rbBasic : RainBirdService :=
  { model := "ESP", version := some "1.0", serialNumber := "S1", zones := [1, 2, 3] }

/-- Metadata of a controller reporting a single zone. -/
def rbOneZone : RainBirdService :=
  { model := "ESP", version := some "1.0", serialNumber := "S1", zones := [1] }

/-- A device entry exposing valve contact sensors. -/
def devBasic : DevicesConfig := { ipaddress := "10.0.0.2", showValveSensor := true }

/-- A device entry whose handle init will fail. -/
def devBad : DevicesConfig := { ipaddress := "10.0.0.9" }

/-- A device entry with all default (false) visibility flags. -/
def devNoSensor : DevicesConfig := { ipaddress := "10.0.0.2" }

/-- A device entry marked for deletion, with several kinds visible. -/
def devDelete : DevicesConfig :=
  { ipaddress := "10.0.0.2", delete := true, showZoneValve := true, showValveSensor := true
    showProgramASwitch := true, showStopIrrigationSwitch := true, includeZones := "0" }

/-- A persisted contact-sensor record for zone 4 of `rbBasic`. -/
def zone4Contact : Accessory :=
  { uuid := "10.0.0.2-ESP-4-S1", displayName := "Zone 4", context := { zoneId := some 4 } }

/-- A registry pre-populated with the zone-4 record only. -/
def stZone4 : PlatformState := { accessories := [zone4Contact] }

/-- A persisted irrigation-system record. -/
def irrAcc : Accessory := { uuid := "10.0.0.2-ESP-S1", displayName := "ESP", context := {} }

/-- A persisted program-A switch record. -/
def pgmAAcc : Accessory :=
  { uuid := "10.0.0.2-ESP-pgm-A-S1", displayName := "Program A"
    context := { programId := some "A" } }

/-- A persisted stop-switch record. -/
def stopAcc : Accessory :=
  { uuid := "10.0.0.2-ESP-stop-S1", displayName := "Stop Irrigation", context := {} }

/-- A registry holding irrigation-system, program-A and stop records. -/
def stDelete : PlatformState := { accessories := [irrAcc, pgmAAcc, stopAcc] }

/-- An irrigation-system record whose configured map marks zone 5 as
not configured. -/
def irrCfgAcc : Accessory :=
  { uuid := "10.0.0.2-ESP-S1", displayName := "ESP"
    context := { configured := [(5, NOT_CONFIGURED)] } }

/-- A registry holding only `irrCfgAcc`. -/
def stCfg : PlatformState := { accessories := [irrCfgAcc] }

/-- A persisted contact-sensor record for zone 1. -/
def contact1Acc : Accessory :=
  { uuid := "10.0.0.2-ESP-1-S1", displayName := "Zone 1", context := { zoneId := some 1 } }

/-- A registry holding only `contact1Acc`. -/
def stContact1 : PlatformState := { accessories := [contact1Acc] }

end Rainbird

namespace Rainbird

/-! ### Claim theorems -/

/-- C1 (counterexample): with two configured devices where the first
device's handle init rejects with a ConnectionError, the discovery loop
does not attempt the second device: it rethrows at once and the second
device's irrigation-system record is never created, contradicting the
claim that per-device errors are caught and the loop continues with the
remaining entries. -/
theorem C1_counterexample :
    (discoverDevices false "3.0.1"
        [(devBad, Except.error InitError.connectionError), (devBasic, Except.ok rbBasic)]
        { accessories := [] })
      = (some (DiscoverError.initFailed InitError.connectionError), { accessories := [] })
    ∧ findAccessory (discoverDevices false "3.0.1"
        [(devBad, Except.error InitError.connectionError), (devBasic, Except.ok rbBasic)]
        { accessories := [] }).2 "10.0.0.2-ESP-S1" = none := by
  constructor
  · decide
  · decide

/-- C1 (amended): an error thrown by a device's handle init is not
caught per device — `discoverDevices` rethrows it immediately with the
state as of the failure, so no remaining device entry is attempted in
that run; the rejection is caught only by the top-level
`didFinishLaunching` handler, which keeps that state. -/
theorem C1_amended : ∀ (allow : Bool) (pv : String) (dev : DevicesConfig)
    (rest : List (DevicesConfig × Except InitError RainBirdService))
    (e : InitError) (st : PlatformState),
    discoverDevices allow pv ((dev, Except.error e) :: rest) st
      = (some (DiscoverError.initFailed e), st)
    ∧ didFinishLaunching allow pv ((dev, Except.error e) :: rest) st = st := by
  intro allow pv dev rest e st
  exact ⟨rfl, rfl⟩

/-- C2 (counterexample): a registry pre-populated with a persisted
zone-4 contact-sensor record, reconciled against metadata reporting
zones [1,2,3] only, still holds the zone-4 record at the end of the
pass (it is not even host-unregistered), contradicting the claim that
it has been removed. -/
theorem C2_counterexample :
    (4 ∉ rbBasic.zones)
    ∧ (findAccessory (discoverDevicePass false "3.0.1" devBasic rbBasic stZone4).2
        "10.0.0.2-ESP-4-S1").isSome = true
    ∧ "10.0.0.2-ESP-4-S1"
        ∉ (discoverDevicePass false "3.0.1" devBasic rbBasic stZone4).2.unregistered := by
  refine ⟨by decide, by decide, by decide⟩

/-- C2 (amended): a full discovery pass never removes a record from the
in-memory registry — every identifier present before the pass is still
present after it (removal paths only signal host-side unregistration);
in particular the persisted zone-4 record survives a pass that reports
zones [1,2,3] only, and is removed only by the zone-disable handler. -/
theorem C2_amended : ∀ (allow : Bool) (pv : String) (dev : DevicesConfig)
    (rb : RainBirdService) (st : PlatformState) (u : String),
    u ∈ uuids st → u ∈ uuids (discoverDevicePass allow pv dev rb st).2 := by
  intro allow pv dev rb st u hu
  obtain ⟨t, ht⟩ := uuids_suffix_discoverDevicePass allow pv dev rb st
  rw [ht]
  exact List.mem_append_left t hu

/-- C2 (witness): the amended theorem applied to the zone-4 fixture. -/
theorem C2_witness :
    "10.0.0.2-ESP-4-S1" ∈ uuids (discoverDevicePass false "3.0.1" devBasic rbBasic stZone4).2 :=
  C2_amended false "3.0.1" devBasic rbBasic stZone4 "10.0.0.2-ESP-4-S1" (by decide)

/-- C3 (code evaluated at the failing input): for a device with
`delete = true` whose metadata reports zone [1], the discovery pass
throws a TypeError (the zone loop dereferences the `undefined` returned
by `createIrrigationSystem` on its delete path) after host-unregistering
only the irrigation-system record; the persisted program-A and stop
records are neither host-unregistered nor removed from the in-memory
registry, and every record is still in the in-memory registry. -/
theorem C3_delete_pass_throws :
    (discoverDevicePass false "3.0.1" devDelete rbOneZone stDelete).1
      = some DiscoverError.typeError
    ∧ "10.0.0.2-ESP-S1" ∈ (discoverDevicePass false "3.0.1" devDelete rbOneZone stDelete).2.unregistered
    ∧ "10.0.0.2-ESP-pgm-A-S1"
        ∉ (discoverDevicePass false "3.0.1" devDelete rbOneZone stDelete).2.unregistered
    ∧ "10.0.0.2-ESP-stop-S1"
        ∉ (discoverDevicePass false "3.0.1" devDelete rbOneZone stDelete).2.unregistered
    ∧ uuids (discoverDevicePass false "3.0.1" devDelete rbOneZone stDelete).2 = uuids stDelete := by
  refine ⟨by decide, by decide, by decide, by decide, by decide⟩

/-- C4 (counterexample): with the irrigation-system record's configured
map marking zone 5 as NOT_CONFIGURED, a `zone_enable(5, true)`
notification still creates the zone-5 contact-sensor record — the
zone-enable handler never consults the configured map, contradicting
the claim that every creation path is gated by it. -/
theorem C4_counterexample :
    lookupConfigured irrCfgAcc.context.configured 5 = NOT_CONFIGURED
    ∧ findAccessory stCfg "10.0.0.2-ESP-5-S1" = none
    ∧ (findAccessory (onZoneEnable false "3.0.1" devBasic rbBasic 5 true stCfg)
        "10.0.0.2-ESP-5-S1").isSome = true := by
  refine ⟨by decide, by decide, by decide⟩

/-- C4 (amended): only the startup discovery loop gates zone-record
creation on the irrigation-system record's configured map — its zone
loop reconciles exactly the reported zones whose configured entry is
CONFIGURED or absent; the zone-enable notification handler creates the
contact-sensor record without consulting the configured map at all. -/
theorem C4_amended :
    (∀ (allow : Bool) (pv : String) (dev : DevicesConfig) (rb : RainBirdService)
        (irr : Accessory) (zones : List Nat) (st : PlatformState),
      zoneLoop allow pv dev rb (some irr) zones st
        = zoneLoop allow pv dev rb (some irr)
            (zones.filter (fun z => lookupConfigured irr.context.configured z == CONFIGURED)) st)
    ∧ (∀ (allow : Bool) (pv : String) (dev : DevicesConfig) (rb : RainBirdService)
        (z : Nat) (st : PlatformState),
      onZoneEnable allow pv dev rb z true st = createContactSensor allow pv dev rb z st) := by
  constructor
  · intro allow pv dev rb irr zones
    induction zones with
    | nil => intro st; rfl
    | cons z rest ih =>
      intro st
      by_cases hc : (lookupConfigured irr.context.configured z == CONFIGURED) = true
      · rw [List.filter_cons, if_pos hc]
        simp only [zoneLoop]
        rw [if_pos hc, if_pos hc]
        exact ih _
      · rw [List.filter_cons, if_neg hc]
        simp only [zoneLoop]
        rw [if_neg hc]
        exact ih st
  · intro allow pv dev rb z st
    rfl

end Rainbird

namespace Rainbird

theorem contains_optionInt_iff (l : List (Option Int)) (a : Option Int) :
    l.contains a = true ↔ a ∈ l := by
  simp [List.contains]

/-- A device entry exposing zone valves for zones 2 and 5 only. -/
def devZV : DevicesConfig :=
  { ipaddress := "10.0.0.2", showZoneValve := true, includeZones := "2,5" }

/-- A registry holding only the irrigation-system record `irrAcc`. -/
def stIrrOnly : PlatformState := { accessories := [irrAcc] }

/-- C5: a zone-valve record is created only when the device is not
marked for deletion, `showZoneValve` is true, and the parsed inclusion
filter contains 0 or the zone id (first conjunct, over arbitrary
states); when the device's irrigation-system record is present — as it
always is when the discovery pass reaches this call, and as
`new ZoneValve(..., irrigationAccessory!.context)` requires for the
creation to complete — those conditions are exactly when the record is
created (second conjunct); with `showZoneValve = false` the in-memory
collection is untouched for any filter contents; filter "0" makes every
zone eligible and filter "2,5" exactly zones 2 and 5. -/
theorem C5_zone_valve_gating :
    (∀ (allow : Bool) (pv : String) (dev : DevicesConfig) (rb : RainBirdService)
        (z : Nat) (st : PlatformState),
      uuidGenerate (mkUuidSeed dev.ipaddress (zoneValveModel rb.model z) rb.serialNumber)
          ∉ uuids st →
      uuidGenerate (mkUuidSeed dev.ipaddress (zoneValveModel rb.model z) rb.serialNumber)
          ∈ uuids (createZoneValve allow pv dev rb z st).2 →
      dev.delete = false ∧ dev.showZoneValve = true
        ∧ (some 0 ∈ parseIncludeZones dev.includeZones
           ∨ some (z : Int) ∈ parseIncludeZones dev.includeZones))
    ∧ (∀ (allow : Bool) (pv : String) (dev : DevicesConfig) (rb : RainBirdService)
        (z : Nat) (st : PlatformState),
      uuidGenerate (mkUuidSeed dev.ipaddress (zoneValveModel rb.model z) rb.serialNumber)
          ∉ uuids st →
      (findAccessory st
        (uuidGenerate (mkUuidSeed dev.ipaddress rb.model rb.serialNumber))).isSome = true →
      (uuidGenerate (mkUuidSeed dev.ipaddress (zoneValveModel rb.model z) rb.serialNumber)
          ∈ uuids (createZoneValve allow pv dev rb z st).2
        ↔ dev.delete = false ∧ dev.showZoneValve = true
            ∧ (some 0 ∈ parseIncludeZones dev.includeZones
               ∨ some (z : Int) ∈ parseIncludeZones dev.includeZones)))
    ∧ (∀ (allow : Bool) (pv : String) (dev : DevicesConfig) (rb : RainBirdService)
        (z : Nat) (st : PlatformState), dev.showZoneValve = false →
      (createZoneValve allow pv dev rb z st).2.accessories = st.accessories)
    ∧ (∀ (dev : DevicesConfig) (z : Nat), dev.includeZones = "0" → dev.delete = false →
        dev.showZoneValve = true → registerZoneValve dev z = true)
    ∧ (∀ (dev : DevicesConfig) (z : Nat), dev.includeZones = "2,5" → dev.delete = false →
        dev.showZoneValve = true → (registerZoneValve dev z = true ↔ z = 2 ∨ z = 5)) := by
  refine ⟨?_, ?_, ?_, ?_, ?_⟩
  · intro allow pv dev rb z st hnotin hmem
    have hr : registerZoneValve dev z = true ↔ dev.delete = false ∧ dev.showZoneValve = true
        ∧ (some 0 ∈ parseIncludeZones dev.includeZones
           ∨ some (z : Int) ∈ parseIncludeZones dev.includeZones) := by
      simp [registerZoneValve, List.contains, and_assoc]
    rw [← hr]
    by_cases hreg : registerZoneValve dev z = true
    · exact hreg
    · exfalso
      simp only [createZoneValve, findAccessory_eq_none hnotin, if_neg hreg] at hmem
      exact absurd hmem hnotin
  · intro allow pv dev rb z st hnotin hirr
    have hr : registerZoneValve dev z = true ↔ dev.delete = false ∧ dev.showZoneValve = true
        ∧ (some 0 ∈ parseIncludeZones dev.includeZones
           ∨ some (z : Int) ∈ parseIncludeZones dev.includeZones) := by
      simp [registerZoneValve, List.contains, and_assoc]
    rw [← hr]
    rw [Option.isSome_iff_exists] at hirr
    obtain ⟨irrA, hi⟩ := hirr
    simp only [createZoneValve, findAccessory_eq_none hnotin, hi]
    by_cases hreg : registerZoneValve dev z = true
    · rw [if_pos hreg, uuids_pushAccessory, uuids_externalOrPlatform]
      refine ⟨fun _ => hreg, fun _ => ?_⟩
      exact List.mem_append_right _ (List.mem_singleton_self _)
    · rw [if_neg hreg]
      exact ⟨fun hmem => absurd hmem hnotin, fun h => absurd h hreg⟩
  · intro allow pv dev rb z st hshow
    have hreg : registerZoneValve dev z = false := by
      simp [registerZoneValve, hshow]
    simp only [createZoneValve]
    split
    next a heq =>
      rw [if_neg (by simp [hreg])]
      rfl
    next heq =>
      rw [if_neg (by simp [hreg])]
  · intro dev z hinc hdel hshow
    have hp : parseIncludeZones "0" = [some 0] := by decide
    simp [registerZoneValve, hinc, hp, hdel, hshow, List.contains]
  · intro dev z hinc hdel hshow
    have hp : parseIncludeZones "2,5" = [some 2, some 5] := by decide
    simp only [registerZoneValve, hinc, hp, hdel, hshow]
    simp [List.contains]
    omega

/-- C5 (witness): with filter "2,5" and the irrigation-system record in
the registry, a new zone-2 valve record is created, and zone 5 satisfies
the register condition. -/
theorem C5_witness :
    "10.0.0.2-ESP-valve-2-S1"
        ∈ uuids (createZoneValve false "3.0.1" devZV rbBasic 2 stIrrOnly).2
    ∧ registerZoneValve devZV 5 = true := by
  constructor
  · exact (C5_zone_valve_gating.2.1 false "3.0.1" devZV rbBasic 2 stIrrOnly
      (by decide) (by decide)).mpr ⟨rfl, rfl, by decide⟩
  · exact (C5_zone_valve_gating.2.2.2.2 devZV 5 rfl rfl rfl).mpr (Or.inr rfl)

/-- C6: the display-name sanitizer is idempotent — sanitizing twice
equals sanitizing once, under both character policies; in particular an
already-clean value is returned unchanged by a second pass. -/
theorem C6_sanitizer_idempotent : ∀ (allow : Bool) (x : String),
    validateAndCleanDisplayName allow (validateAndCleanDisplayName allow x)
      = validateAndCleanDisplayName allow x := by
  intro allow x
  cases allow with
  | true => rfl
  | false => exact congrArg String.mk (cleanList_idem x.data)

/-- C7: the sanitizer is total; with the allow-any-characters override it
returns the candidate unchanged; otherwise every output character is a
letter, digit, space or apostrophe and the output starts and ends with a
letter or digit whenever it is nonempty (the empty string being the
worst case); the input "  My-Zone!! " sanitizes to "MyZone". -/
theorem C7_sanitizer_output :
    (∀ x : String, validateAndCleanDisplayName true x = x)
    ∧ (∀ x : String,
        (validateAndCleanDisplayName false x).data.all isInteriorChar = true
        ∧ (validateAndCleanDisplayName false x).data.head?.all isNameChar = true
        ∧ (validateAndCleanDisplayName false x).data.getLast?.all isNameChar = true)
    ∧ validateAndCleanDisplayName false "  My-Zone!! " = "MyZone" := by
  refine ⟨fun x => rfl, fun x => ?_, by decide⟩
  exact cleanList_invariant x.data

/-- C8: identifier-seed derivation is deterministic, and on a fixed
device (address, model, serial) two different zone numbers produce
different seed strings for both the zone-valve and the contact-sensor
kind suffix, hence different identifiers. -/
theorem C8_identifier_seeds :
    (∀ a k s : String, mkUuidSeed a k s = mkUuidSeed a k s)
    ∧ (∀ (a m s : String) (z1 z2 : Nat), z1 ≠ z2 →
        mkUuidSeed a (zoneValveModel m z1) s ≠ mkUuidSeed a (zoneValveModel m z2) s
        ∧ mkUuidSeed a (contactSensorModel m z1) s
            ≠ mkUuidSeed a (contactSensorModel m z2) s) := by
  refine ⟨fun a k s => rfl, fun a m s z1 z2 hne => ⟨?_, ?_⟩⟩
  · intro h
    exact hne (mkUuidSeed_zoneValve_injective h)
  · intro h
    exact hne (mkUuidSeed_contactSensor_injective h)

/-- C8 (witness): zones 1 and 2 of the same device have different
zone-valve seeds. -/
theorem C8_witness :
    mkUuidSeed "10.0.0.2" (zoneValveModel "ESP" 1) "S1"
      ≠ mkUuidSeed "10.0.0.2" (zoneValveModel "ESP" 2) "S1" :=
  (C8_identifier_seeds.2 "10.0.0.2" "ESP" "S1" 1 2 (by decide)).1

/-- C9 (counterexample): a contact-sensor record exists for zone 1 and
`showValveSensor` is false, so the pass takes the removal branch; yet
afterwards the identifier still resolves in the in-memory collection,
contradicting the claim that the lookup returns nothing. -/
theorem C9_counterexample :
    (findAccessory (createContactSensor false "3.0.1" devNoSensor rbBasic 1 stContact1)
      "10.0.0.2-ESP-1-S1").isSome = true := by decide

/-- C9 (amended): when a record with the derived identifier exists and
shouldExist is false, the pass hands the identifier to the host-side
`unregisterPlatformAccessories` but leaves the in-memory collection
unchanged — the record is still found there; only the zone-disable
handler's `removeContactSensor`/`removeZoneValve` also splice it out. -/
theorem C9_amended : ∀ (allow : Bool) (pv : String) (dev : DevicesConfig)
    (rb : RainBirdService) (z : Nat) (st : PlatformState) (a : Accessory),
    findAccessory st (uuidGenerate (mkUuidSeed dev.ipaddress (contactSensorModel rb.model z)
      rb.serialNumber)) = some a →
    (!dev.delete && dev.showValveSensor) = false →
    (createContactSensor allow pv dev rb z st).accessories = st.accessories
    ∧ uuidGenerate (mkUuidSeed dev.ipaddress (contactSensorModel rb.model z) rb.serialNumber)
        ∈ (createContactSensor allow pv dev rb z st).unregistered := by
  intro allow pv dev rb z st a hfind hcond
  simp only [createContactSensor, hfind]
  rw [if_neg (by simp [hcond])]
  refine ⟨rfl, ?_⟩
  exact List.mem_append_right _ (List.mem_singleton_self _)

/-- C9 (witness): the amended theorem applied to the zone-1 fixture with
all visibility flags off. -/
theorem C9_witness :
    (createContactSensor false "3.0.1" devNoSensor rbBasic 1 stContact1).accessories
        = stContact1.accessories
    ∧ "10.0.0.2-ESP-1-S1"
        ∈ (createContactSensor false "3.0.1" devNoSensor rbBasic 1 stContact1).unregistered :=
  C9_amended false "3.0.1" devNoSensor rbBasic 1 stContact1 contact1Acc (by decide) (by decide)

/-- A raw device entry leaving `includeZones` unset. -/
def rawDefault : RawDevicesConfig := { ipaddress := "10.0.0.2" }

/-- A device entry with zone valves shown and the default empty filter. -/
def devDefaultZV : DevicesConfig := { ipaddress := "10.0.0.2", showZoneValve := true }

/-- C10: the default `includeZones` is the empty string; `Number('')`
is 0, so the parsed filter set is `[0]` and the wildcard branch fires:
with `showZoneValve = true` and `delete = false` every zone satisfies
the zone-valve register condition. -/
theorem C10_empty_filter_wildcard :
    jsNumber "".data = some 0
    ∧ parseIncludeZones "" = [some 0]
    ∧ (∀ raw : RawDevicesConfig, raw.includeZones = none →
        (initialiseConfig raw).includeZones = "")
    ∧ (∀ (dev : DevicesConfig) (z : Nat), dev.includeZones = "" → dev.delete = false →
        dev.showZoneValve = true → registerZoneValve dev z = true) := by
  refine ⟨by decide, by decide, ?_, ?_⟩
  · intro raw h
    simp [initialiseConfig, h]
  · intro dev z hinc hdel hshow
    have hp : parseIncludeZones "" = [some 0] := by decide
    simp [registerZoneValve, hinc, hp, hdel, hshow, List.contains]

/-- C10 (witness): the defaulted entry yields the empty filter and zone 7
satisfies the register condition. -/
theorem C10_witness :
    (initialiseConfig rawDefault).includeZones = ""
    ∧ registerZoneValve devDefaultZV 7 = true :=
  ⟨C10_empty_filter_wildcard.2.2.1 rawDefault rfl,
   C10_empty_filter_wildcard.2.2.2 devDefaultZV 7 rfl rfl rfl⟩

end Rainbird
